import Mathlib

/-!
Verification of the semantic-search Lambda pipeline
(`backend/lambda/semantic_search.py`).

The development shallowly embeds the handler and its pure helpers:

* a small backtracking regex engine covering exactly the constructs used by
  the pattern table in `detect_threat_patterns` (case-insensitive literal
  alternation, character classes, bounded greedy repetition, word
  boundaries), with Python `re.findall` scanning semantics
  (leftmost position, alternatives tried in written order, greedy
  quantifiers, non-overlapping matches);
* `detect_threat_patterns` and `generate_security_recommendations`;
* `lambda_handler`, written over an explicit environment of external
  collaborators (embedding cache, embeddings provider, vector index,
  relational store, result cache) and returning both the handler outcome
  (an HTTP-style response, or an exception that escaped the handler) and a
  log of the side effects performed.

Python floats are modelled as `ℚ` (every numeric literal involved is exactly
representable), machine strings as Lean `String`, and `\b` word characters by
their ASCII meaning (`[A-Za-z0-9_]`), which is the fragment exercised here.
-/

/-! ### A tiny regex engine, specialised to the constructs in the source

A `Matcher` receives the whole text (as a character list, so that the word
boundary `\b` can look at the previous character) and a start position, and
returns the candidate end positions in backtracking preference order; the
head of that list is the match Python's engine would pick. -/

def Matcher : Type := List Char → Nat → List Nat

/-- Literal string match, optionally case-insensitive (the `(?i)` flag). -/
def matchesLit (ci : Bool) : List Char → List Char → Bool
  | [], _ => true
  | _ :: _, [] => false
  | a :: as, b :: bs =>
    (if ci then a.toLower == b.toLower else a == b) && matchesLit ci as bs

def mLit (ci : Bool) (w : List Char) : Matcher := fun full i =>
  if matchesLit ci w (full.drop i) then [i + w.length] else []

/-- Single character from a class such as `[0-9]`. -/
def mCls (p : Char → Bool) : Matcher := fun full i =>
  match full.get? i with
  | some c => if p c then [i + 1] else []
  | none => []

/-- Sequencing, with backtracking preference order preserved. -/
def mSeq (m1 m2 : Matcher) : Matcher := fun full i =>
  (m1 full i).flatMap (fun j => m2 full j)

/-- Alternation `(a|b|...)`: alternatives are tried in written order. -/
def mAlt (ms : List Matcher) : Matcher := fun full i =>
  ms.flatMap (fun m => m full i)

def mEps : Matcher := fun _ i => [i]

/-- Exactly `n` repetitions. -/
def mRep (m : Matcher) : Nat → Matcher
  | 0 => mEps
  | n + 1 => mSeq m (mRep m n)

/-- Greedy bounded repetition `{lo,hi}` (correct here because every
repeated element in the source's patterns is a single character class,
hence deterministic). -/
def mRepRange (m : Matcher) (lo hi : Nat) : Matcher :=
  mAlt ((List.range (hi + 1 - lo)).map (fun k => mRep m (hi - k)))

/-- Python `\w` restricted to ASCII: `[A-Za-z0-9_]`. -/
def isWordChar (c : Char) : Bool := c.isAlphanum || c == '_'

/-- The zero-width word-boundary assertion `\b`. -/
def mWb : Matcher := fun full i =>
  let before := match i with
    | 0 => false
    | j + 1 => (full.get? j).any isWordChar
  let after := (full.get? i).any isWordChar
  if before != after then [i] else []

/-- The match (if any) the backtracking engine finds at position `i`. -/
def matchAt (m : Matcher) (full : List Char) (i : Nat) : Option Nat :=
  (m full i).head?

/-- `re.findall` scanning: try each position left to right, emit the match
found there and resume after it (matches are non-overlapping).  `fuel`
bounds the recursion; `full.length + 1` positions always suffice because
every step advances the position. -/
def findallFrom (m : Matcher) (full : List Char) : Nat → Nat → List (List Char)
  | _, 0 => []
  | i, fuel + 1 =>
    if full.length < i then []
    else
      match matchAt m full i with
      | some e =>
        if i < e then ((full.drop i).take (e - i)) :: findallFrom m full e fuel
        else findallFrom m full (i + 1) fuel
      | none => findallFrom m full (i + 1) fuel

def findall (m : Matcher) (s : String) : List String :=
  (findallFrom m s.data 0 (s.data.length + 1)).map (fun cs => String.mk cs)

/-! ### The pattern table of `detect_threat_patterns` -/

/-- `(?i)(w1|w2|...)`: case-insensitive alternation of literal words. -/
def reWords (ws : List String) : Matcher :=
  mAlt (ws.map (fun w => mLit true w.data))

def isDigitChar (c : Char) : Bool := c.isDigit

def isHexLowerChar (c : Char) : Bool :=
  c.isDigit || (decide ('a' ≤ c) && decide (c ≤ 'f'))

def isB64Char (c : Char) : Bool := c.isAlphanum || c == '+' || c == '/'

/-- `\b(?:[0-9]{1,3}\.){3}[0-9]{1,3}\b` — IP addresses. -/
def reIP : Matcher :=
  mSeq mWb
    (mSeq (mRep (mSeq (mRepRange (mCls isDigitChar) 1 3) (mLit false ['.'])) 3)
      (mSeq (mRepRange (mCls isDigitChar) 1 3) mWb))

/-- `\b(?:[a-f0-9]{2}:){5}[a-f0-9]{2}\b` — MAC addresses. -/
def reMAC : Matcher :=
  mSeq mWb
    (mSeq (mRep (mSeq (mRep (mCls isHexLowerChar) 2) (mLit false [':'])) 5)
      (mSeq (mRep (mCls isHexLowerChar) 2) mWb))

/-- `\b[A-Za-z0-9+/]{n}={0,2}\b` — hash-like tokens (n = 40, 64, 32). -/
def reHashLike (n : Nat) : Matcher :=
  mSeq mWb
    (mSeq (mRep (mCls isB64Char) n)
      (mSeq (mRepRange (mCls (fun c => c == '=')) 0 2) mWb))

/-- The `patterns` dict of `detect_threat_patterns`, flattened in Python's
dict insertion order (malware, network, attack vectors, IOC) and list order
within each category. -/
def threatPatterns : List Matcher :=
  [ reWords ["malware", "virus", "trojan", "ransomware", "backdoor", "rootkit"],
    reWords ["payload", "exploit", "shellcode", "injection"],
    reWords ["keylogger", "spyware", "adware"],
    reWords ["lateral movement", "pivot", "exfiltration"],
    reWords ["command and control", "c2", "beacon"],
    reWords ["data breach", "leak", "exfil"],
    reWords ["phishing", "spear phishing", "social engineering"],
    reWords ["privilege escalation", "escalation"],
    reWords ["persistence", "persistent"],
    reIP, reMAC, reHashLike 40, reHashLike 64, reHashLike 32 ]

/-! ### The threat scorer -/

structure ThreatAnalysis where
  threat_level : String
  confidence_score : ℚ
  indicators : List String
  risk_factors : List String
deriving DecidableEq, Repr

/-- The matched substrings accumulated across every pattern, in pattern
order — the `detected['indicators']` list before any truncation. -/
def collectIndicators (text : String) : List String :=
  (threatPatterns.map (fun m => findall m text)).flatten

/-- `pat` occurs as a contiguous sublist of `l`. -/
def listContainsSub (pat : List Char) : List Char → Bool
  | [] => pat.isEmpty
  | c :: cs => pat.isPrefixOf (c :: cs) || listContainsSub pat cs

/-- `'frag' in indicator.lower()` — Python substring containment on the
lower-cased indicator. -/
def strContainsLower (ind frag : String) : Bool :=
  listContainsSub frag.data (ind.data.map Char.toLower)

def detect_threat_patterns (text : String) : ThreatAnalysis :=
  let indicators := collectIndicators text
  let threat_count := indicators.length
  let lvl : String :=
    if threat_count ≥ 5 then "critical"
    else if threat_count ≥ 3 then "high"
    else if threat_count ≥ 1 then "medium"
    else "low"
  let score : ℚ :=
    if threat_count ≥ 5 then mkRat 9 10
    else if threat_count ≥ 3 then mkRat 7 10
    else if threat_count ≥ 1 then mkRat 5 10
    else 0
  let risk_factors :=
    (if indicators.any (fun ind => strContainsLower ind "malware")
      then ["Malware detected"] else []) ++
    (if indicators.any (fun ind => strContainsLower ind "lateral")
      then ["Lateral movement detected"] else []) ++
    (if indicators.any (fun ind => strContainsLower ind "exfil")
      then ["Data exfiltration risk"] else [])
  { threat_level := lvl, confidence_score := score,
    indicators := indicators, risk_factors := risk_factors }

/-! ### Recommendation generation -/

def generalRecs : List String :=
  [ "Immediate incident response required",
    "Isolate affected systems",
    "Notify security team and management",
    "Preserve evidence for forensic analysis" ]

def malwareRecs : List String :=
  [ "Run full antivirus scan on all systems",
    "Check for persistence mechanisms",
    "Review system logs for additional indicators" ]

def lateralRecs : List String :=
  [ "Review network segmentation",
    "Check for unauthorized access attempts",
    "Monitor for additional lateral movement" ]

def exfilRecs : List String :=
  [ "Review data access logs",
    "Check for unusual data transfers",
    "Implement data loss prevention measures" ]

def generate_security_recommendations (ta : ThreatAnalysis) : List String :=
  let recommendations :=
    (if ["high", "critical"].contains ta.threat_level then generalRecs else []) ++
    (if ta.risk_factors.contains "Malware detected" then malwareRecs else []) ++
    (if ta.risk_factors.contains "Lateral movement detected" then lateralRecs else []) ++
    (if ta.risk_factors.contains "Data exfiltration risk" then exfilRecs else [])
  recommendations.take 5

example : collectIndicators "192.168.1.1" = ["192.168.1.1"] := by decide
example : (detect_threat_patterns "192.168.1.1").threat_level = "medium" := by decide

/-! ### Request parsing

JSON scalars reaching `float(...)` / `int(...)` are modelled as numbers or
strings.  `pyFloat` follows Python `float(str)` on the decimal fragment
(optional sign, digits, optional fraction; the exponent/inf/nan forms are
not exercised by the claims), `pyInt` follows `int(...)` (truncation toward
zero on numbers, sign and digits only on strings).  A parse failure models
the uncaught `ValueError`. -/

inductive PyVal where
  | num (q : ℚ)
  | str (s : String)
deriving DecidableEq, Repr

def allDigits (cs : List Char) : Bool := cs.all Char.isDigit

def digitsVal (cs : List Char) : Nat :=
  cs.foldl (fun a c => a * 10 + (c.toNat - 48)) 0

/-- The leading/trailing whitespace stripping `float(str)`/`int(str)`
perform. -/
def trimChars (cs : List Char) : List Char :=
  (((cs.dropWhile Char.isWhitespace).reverse).dropWhile Char.isWhitespace).reverse

def parseDecimalCore (cs : List Char) : Option ℚ :=
  let ip := cs.takeWhile Char.isDigit
  let rest := cs.dropWhile Char.isDigit
  match rest with
  | [] => if ip.isEmpty then none else some (digitsVal ip)
  | '.' :: fp =>
    if allDigits fp then
      if ip.isEmpty && fp.isEmpty then none
      else some ((digitsVal ip : ℚ) + mkRat (digitsVal fp) (10 ^ fp.length))
    else none
  | _ => none

def pyFloat : PyVal → Option ℚ
  | .num q => some q
  | .str s =>
    match trimChars s.data with
    | '+' :: cs => parseDecimalCore cs
    | '-' :: cs => (parseDecimalCore cs).map Neg.neg
    | cs => parseDecimalCore cs

def pyInt : PyVal → Option Int
  | .num q => some (if 0 ≤ q then ⌊q⌋ else -⌊-q⌋)
  | .str s =>
    let core (cs : List Char) : Option Nat :=
      if cs.isEmpty then none else if allDigits cs then some (digitsVal cs) else none
    match trimChars s.data with
    | '+' :: cs => (core cs).map Int.ofNat
    | '-' :: cs => (core cs).map (fun n => -(n : Int))
    | cs => (core cs).map Int.ofNat

/-- The parsed request body (the JSON dict after `json.loads`). -/
structure ReqBody where
  query : Option String
  matchThreshold : Option PyVal
  matchCount : Option PyVal
deriving DecidableEq, Repr

/-! ### External collaborators and effects

The handler is written over an explicit environment: the embedding cache
(`redis_client.get` on `embedding:` keys), the embeddings provider
(`openai.Embedding.create`), the vector index (`pinecone_index.query`), the
relational store (the `incidents` table behind `SELECT ... WHERE id =
ANY(%s)`, or a connection/query failure), and the outcome of the final
result-cache `setex`.  `Except.error` models a raised exception from that
collaborator. -/

/-- A row of the `incidents` table (`created_at`/`updated_at` hold the
already-`isoformat`ed timestamp when non-NULL). -/
structure Row where
  id : String
  title : String
  description : Option String
  severity : String
  status : String
  assignee : String
  alert_count : Int
  tags : String
  created_at : Option String
  updated_at : Option String
deriving DecidableEq, Repr

structure Env where
  embedCache : String → Option (List ℚ)
  openaiEmbed : String → Except String (List ℚ)
  pineconeQuery : List ℚ → Int → Except String (List (String × ℚ))
  auroraDB : Except String (List Row)
  resultCacheWrite : Except String Unit

/-- Log of the side effects the handler performed, in the order issued. -/
structure Effects where
  cacheReads : List String
  openaiCalls : List String
  embedCacheWrites : List (String × Nat × List ℚ)
  vectorQueries : List (List ℚ × Int)
  metadataFetches : List (List String)
  resultCacheWrites : List (String × Nat)
deriving DecidableEq, Repr

def noEffects : Effects := ⟨[], [], [], [], [], []⟩

/-- The `threat_analysis` block assembled into each response record. -/
structure ThreatPayload where
  threat_level : String
  confidence_score : ℚ
  indicators : List String
  risk_factors : List String
  recommendations : List String
deriving DecidableEq, Repr

structure Incident where
  id : String
  title : String
  description : Option String
  severity : String
  status : String
  assignee : String
  alert_count : Int
  tags : String
  created_at : Option String
  updated_at : Option String
  threat_analysis : ThreatPayload
deriving DecidableEq, Repr

inductive RespBody where
  | err (msg : String)
  | ok (results : List Incident) (query : String) (matchThreshold : ℚ)
      (matchCount : Nat)
deriving DecidableEq, Repr

/-- Handler outcome: an HTTP-style response, or an exception that escaped
`lambda_handler` (so the caller sees no response dict at all). -/
inductive HResult where
  | resp (statusCode : Nat) (body : RespBody)
  | raised (msg : String)
deriving DecidableEq, Repr

def statusOf : HResult → Option Nat
  | .resp s _ => some s
  | .raised _ => none

/-! ### The handler -/

/-- The per-row loop body of step 4: threat analysis on `title` +
`" "` + (`description` or `''`), recommendations, and the response record
with `indicators` truncated to the first 10. -/
def buildIncident (row : Row) : Incident :=
  let threat_analysis := detect_threat_patterns (row.title ++ " " ++ row.description.getD "")
  let security_recommendations := generate_security_recommendations threat_analysis
  { id := row.id, title := row.title, description := row.description,
    severity := row.severity, status := row.status, assignee := row.assignee,
    alert_count := row.alert_count, tags := row.tags,
    created_at := row.created_at, updated_at := row.updated_at,
    threat_analysis :=
      { threat_level := threat_analysis.threat_level,
        confidence_score := threat_analysis.confidence_score,
        indicators := threat_analysis.indicators.take 10,
        risk_factors := threat_analysis.risk_factors,
        recommendations := security_recommendations } }

/-- Steps 5–6: the result-cache `setex` (line 231, not wrapped in any
`try`) followed by the 200 response.  A write failure escapes the handler
as an exception. -/
def afterRows (env : Env) (query : String) (match_threshold : ℚ)
    (match_count : Int) (incidents : List Incident) (fx : Effects) :
    HResult × Effects :=
  let result_key :=
    "search:" ++ query ++ ":" ++ toString match_threshold ++ ":" ++ toString match_count
  let fx := { fx with resultCacheWrites := fx.resultCacheWrites ++ [(result_key, 60 * 10)] }
  match env.resultCacheWrite with
  | .error e => (HResult.raised e, fx)
  | .ok _ =>
    (HResult.resp 200
      (RespBody.ok incidents query match_threshold incidents.length), fx)

/-- Steps 3–4: vector-index query, threshold filter, metadata fetch (the
SQL `WHERE id = ANY(%s)` modelled as a filter over the table), per-row
assembly; then steps 5–6. -/
def afterEmbedding (env : Env) (query : String) (match_threshold : ℚ)
    (match_count : Int) (embedding : List ℚ) (fx : Effects) :
    HResult × Effects :=
  let fx := { fx with vectorQueries := fx.vectorQueries ++ [(embedding, match_count)] }
  match env.pineconeQuery embedding match_count with
  | .error e => (HResult.resp 500 (RespBody.err ("Pinecone error: " ++ e)), fx)
  | .ok matchList =>
    let ids := (matchList.filter (fun m => decide (m.2 ≥ match_threshold))).map Prod.fst
    if ids.isEmpty then afterRows env query match_threshold match_count [] fx
    else
      let fx := { fx with metadataFetches := fx.metadataFetches ++ [ids] }
      match env.auroraDB with
      | .error e => (HResult.resp 500 (RespBody.err ("Aurora error: " ++ e)), fx)
      | .ok db =>
        let rows := db.filter (fun r => ids.contains r.id)
        afterRows env query match_threshold match_count (rows.map buildIncident) fx

def lambda_handler (env : Env) (body : ReqBody) : HResult × Effects :=
  match pyFloat (body.matchThreshold.getD (PyVal.num (mkRat 7 10))) with
  | none => (HResult.raised "ValueError: could not convert string to float", noEffects)
  | some match_threshold =>
    match pyInt (body.matchCount.getD (PyVal.num 10)) with
    | none => (HResult.raised "ValueError: invalid literal for int", noEffects)
    | some match_count =>
      if body.query = none ∨ body.query = some "" then
        (HResult.resp 400 (RespBody.err "Query is required"), noEffects)
      else
        let query := body.query.getD ""
        let embedding_key := "embedding:" ++ query
        let fx : Effects := { noEffects with cacheReads := [embedding_key] }
        match env.embedCache embedding_key with
        | some embedding =>
          afterEmbedding env query match_threshold match_count embedding fx
        | none =>
          let fx := { fx with openaiCalls := [query] }
          match env.openaiEmbed query with
          | .error e =>
            (HResult.resp 500 (RespBody.err ("OpenAI error: " ++ e)), fx)
          | .ok embedding =>
            let fx := { fx with
              embedCacheWrites := [(embedding_key, 60 * 60 * 24, embedding)] }
            afterEmbedding env query match_threshold match_count embedding fx

/-! ### Projection lemmas for the scorer -/

lemma detect_threat_level_def (t : String) :
    (detect_threat_patterns t).threat_level =
      (if (collectIndicators t).length ≥ 5 then "critical"
       else if (collectIndicators t).length ≥ 3 then "high"
       else if (collectIndicators t).length ≥ 1 then "medium" else "low") := rfl

lemma detect_confidence_def (t : String) :
    (detect_threat_patterns t).confidence_score =
      (if (collectIndicators t).length ≥ 5 then mkRat 9 10
       else if (collectIndicators t).length ≥ 3 then mkRat 7 10
       else if (collectIndicators t).length ≥ 1 then mkRat 5 10 else 0) := rfl

lemma detect_indicators_def (t : String) :
    (detect_threat_patterns t).indicators = collectIndicators t := rfl

lemma detect_risk_factors_def (t : String) :
    (detect_threat_patterns t).risk_factors =
      (if (collectIndicators t).any (fun ind => strContainsLower ind "malware")
        then ["Malware detected"] else []) ++
      (if (collectIndicators t).any (fun ind => strContainsLower ind "lateral")
        then ["Lateral movement detected"] else []) ++
      (if (collectIndicators t).any (fun ind => strContainsLower ind "exfil")
        then ["Data exfiltration risk"] else []) := rfl

/-- Ordinal rank of a threat level, for stating monotonicity. -/
def levelRank (s : String) : Nat :=
  if s = "critical" then 3 else if s = "high" then 2
  else if s = "medium" then 1 else 0

lemma level_score_mono (m1 m2 : Nat) (h : m1 ≤ m2) :
    levelRank (if m1 ≥ 5 then "critical" else if m1 ≥ 3 then "high"
               else if m1 ≥ 1 then "medium" else "low") ≤
      levelRank (if m2 ≥ 5 then "critical" else if m2 ≥ 3 then "high"
                 else if m2 ≥ 1 then "medium" else "low") ∧
    (if m1 ≥ 5 then mkRat 9 10 else if m1 ≥ 3 then mkRat 7 10
     else if m1 ≥ 1 then mkRat 5 10 else (0 : ℚ)) ≤
      (if m2 ≥ 5 then mkRat 9 10 else if m2 ≥ 3 then mkRat 7 10
       else if m2 ≥ 1 then mkRat 5 10 else 0) := by
  split_ifs <;> first | (exfalso; omega) | exact ⟨by decide, by decide⟩

/-- C4: the scorer's level/score table over the untruncated match count,
its monotonicity across inputs, and the one-match case. -/
theorem c4_threat_score_table (t : String) :
    ((collectIndicators t).length = 0 →
      (detect_threat_patterns t).threat_level = "low" ∧
      (detect_threat_patterns t).confidence_score = 0) ∧
    (1 ≤ (collectIndicators t).length → (collectIndicators t).length ≤ 2 →
      (detect_threat_patterns t).threat_level = "medium" ∧
      (detect_threat_patterns t).confidence_score = 5/10) ∧
    (3 ≤ (collectIndicators t).length → (collectIndicators t).length ≤ 4 →
      (detect_threat_patterns t).threat_level = "high" ∧
      (detect_threat_patterns t).confidence_score = 7/10) ∧
    (5 ≤ (collectIndicators t).length →
      (detect_threat_patterns t).threat_level = "critical" ∧
      (detect_threat_patterns t).confidence_score = 9/10) ∧
    (∀ t2 : String,
      (collectIndicators t).length ≤ (collectIndicators t2).length →
      levelRank (detect_threat_patterns t).threat_level ≤
        levelRank (detect_threat_patterns t2).threat_level ∧
      (detect_threat_patterns t).confidence_score ≤
        (detect_threat_patterns t2).confidence_score) := by
  refine ⟨?_, ?_, ?_, ?_, ?_⟩ <;>
    simp only [detect_threat_level_def, detect_confidence_def]
  · intro h; split_ifs <;>
      first | (exfalso; omega) | exact ⟨rfl, by norm_num [Rat.mkRat_eq_div]⟩
  · intro h1 h2; split_ifs <;>
      first | (exfalso; omega) | exact ⟨rfl, by norm_num [Rat.mkRat_eq_div]⟩
  · intro h1 h2; split_ifs <;>
      first | (exfalso; omega) | exact ⟨rfl, by norm_num [Rat.mkRat_eq_div]⟩
  · intro h; split_ifs <;>
      first | (exfalso; omega) | exact ⟨rfl, by norm_num [Rat.mkRat_eq_div]⟩
  · intro t2 h
    exact level_score_mono _ _ h

/-- C4 witness: a single dotted-quad IOC match yields (medium, 0.5). -/
theorem c4_threat_score_table_witness :
    (detect_threat_patterns "192.168.1.1").threat_level = "medium" ∧
    (detect_threat_patterns "192.168.1.1").confidence_score = 5/10 :=
  (c4_threat_score_table "192.168.1.1").2.1 (by decide) (by decide)

/-- C6: each risk factor comes from a case-insensitive substring check of
the collected indicators for its fragment, appears at most once, and no
other risk factor exists. -/
theorem c6_risk_factors (t : String) :
    (∀ r ∈ (detect_threat_patterns t).risk_factors,
        r = "Malware detected" ∨ r = "Lateral movement detected" ∨
        r = "Data exfiltration risk") ∧
    (detect_threat_patterns t).risk_factors.Nodup ∧
    ("Malware detected" ∈ (detect_threat_patterns t).risk_factors ↔
        ∃ ind ∈ (detect_threat_patterns t).indicators, strContainsLower ind "malware") ∧
    ("Lateral movement detected" ∈ (detect_threat_patterns t).risk_factors ↔
        ∃ ind ∈ (detect_threat_patterns t).indicators, strContainsLower ind "lateral") ∧
    ("Data exfiltration risk" ∈ (detect_threat_patterns t).risk_factors ↔
        ∃ ind ∈ (detect_threat_patterns t).indicators, strContainsLower ind "exfil") := by
  rw [detect_risk_factors_def, detect_indicators_def]
  cases hm : (collectIndicators t).any (fun ind => strContainsLower ind "malware") <;>
    cases hl : (collectIndicators t).any (fun ind => strContainsLower ind "lateral") <;>
      cases he : (collectIndicators t).any (fun ind => strContainsLower ind "exfil") <;>
        simp_all [List.any_eq_true]

/-- C6 witness: "malware exfiltration" yields exactly the malware and
exfiltration risk factors. -/
theorem c6_risk_factors_witness :
    (detect_threat_patterns "malware exfiltration").risk_factors =
      ["Malware detected", "Data exfiltration risk"] ∧
    ("Malware detected" ∈ (detect_threat_patterns "malware exfiltration").risk_factors ↔
      ∃ ind ∈ (detect_threat_patterns "malware exfiltration").indicators,
        strContainsLower ind "malware") :=
  ⟨by decide, (c6_risk_factors "malware exfiltration").2.2.1⟩

/-- C7: recommendations are the first 5 of general strings (for high or
critical) then the malware, lateral-movement and exfiltration blocks,
gated by the risk factors. -/
theorem c7_recommendations (ta : ThreatAnalysis) :
    generate_security_recommendations ta =
      ((if ta.threat_level = "high" ∨ ta.threat_level = "critical"
          then generalRecs else []) ++
       (if "Malware detected" ∈ ta.risk_factors then malwareRecs else []) ++
       (if "Lateral movement detected" ∈ ta.risk_factors then lateralRecs else []) ++
       (if "Data exfiltration risk" ∈ ta.risk_factors then exfilRecs else [])).take 5 ∧
    (generate_security_recommendations ta).length ≤ 5 := by
  constructor
  · simp [generate_security_recommendations, List.elem_iff]
  · simp only [generate_security_recommendations, List.length_take]
    omega

/-- C10: the scorer's fields are linked — empty indicators, level "low"
and score 0 coincide, and then risk factors and recommendations are
empty. -/
theorem c10_fields_linked (t : String) :
    ((detect_threat_patterns t).indicators = [] ↔
      (detect_threat_patterns t).threat_level = "low") ∧
    ((detect_threat_patterns t).indicators = [] ↔
      (detect_threat_patterns t).confidence_score = 0) ∧
    ((detect_threat_patterns t).indicators = [] →
      (detect_threat_patterns t).risk_factors = []) ∧
    ((detect_threat_patterns t).threat_level = "low" →
      generate_security_recommendations (detect_threat_patterns t) = []) := by
  have hempty : (detect_threat_patterns t).indicators = [] ↔
      (collectIndicators t).length = 0 := by
    rw [detect_indicators_def, List.length_eq_zero]
  have hlow : (detect_threat_patterns t).threat_level = "low" ↔
      (collectIndicators t).length = 0 := by
    rw [detect_threat_level_def]
    split_ifs with h1 h2 h3
    · exact iff_of_false (by decide) (by omega)
    · exact iff_of_false (by decide) (by omega)
    · exact iff_of_false (by decide) (by omega)
    · exact iff_of_true rfl (by omega)
  have hzero : (detect_threat_patterns t).confidence_score = 0 ↔
      (collectIndicators t).length = 0 := by
    rw [detect_confidence_def]
    split_ifs with h1 h2 h3
    · exact iff_of_false (by norm_num) (by omega)
    · exact iff_of_false (by norm_num) (by omega)
    · exact iff_of_false (by norm_num) (by omega)
    · exact iff_of_true rfl (by omega)
  refine ⟨hempty.trans hlow.symm, hempty.trans hzero.symm, ?_, ?_⟩
  · intro h
    have h0 : collectIndicators t = [] := by
      rw [← detect_indicators_def]; exact h
    rw [detect_risk_factors_def, h0]
    simp
  · intro h
    have hc : collectIndicators t = [] := by
      rw [← detect_indicators_def]; exact hempty.mpr (hlow.mp h)
    have h0 : (detect_threat_patterns t).risk_factors = [] := by
      rw [detect_risk_factors_def, hc]; simp
    simp [generate_security_recommendations, h, h0]

/-! ### Stage lemmas for the handler -/

lemma afterRows_effects (env : Env) (q : String) (mt : ℚ) (mc : Int)
    (inc : List Incident) (fx : Effects) :
    (afterRows env q mt mc inc fx).2 =
      { fx with resultCacheWrites := fx.resultCacheWrites ++
          [("search:" ++ q ++ ":" ++ toString mt ++ ":" ++ toString mc, 600)] } := by
  unfold afterRows
  cases env.resultCacheWrite <;> rfl

lemma afterRows_fst (env : Env) (q : String) (mt : ℚ) (mc : Int)
    (inc : List Incident) (fx : Effects) :
    (afterRows env q mt mc inc fx).1 =
      (match env.resultCacheWrite with
       | .error e => HResult.raised e
       | .ok _ => HResult.resp 200 (RespBody.ok inc q mt inc.length)) := by
  unfold afterRows
  cases env.resultCacheWrite <;> rfl

lemma afterEmbedding_effects (env : Env) (q : String) (mt : ℚ) (mc : Int)
    (emb : List ℚ) (fx : Effects) :
    (afterEmbedding env q mt mc emb fx).2.cacheReads = fx.cacheReads ∧
    (afterEmbedding env q mt mc emb fx).2.openaiCalls = fx.openaiCalls ∧
    (afterEmbedding env q mt mc emb fx).2.embedCacheWrites = fx.embedCacheWrites ∧
    (afterEmbedding env q mt mc emb fx).2.vectorQueries =
      fx.vectorQueries ++ [(emb, mc)] := by
  unfold afterEmbedding
  cases hp : env.pineconeQuery emb mc with
  | error e => exact ⟨rfl, rfl, rfl, rfl⟩
  | ok ml =>
    dsimp only
    split
    · rw [afterRows_effects]; exact ⟨rfl, rfl, rfl, rfl⟩
    · cases hd : env.auroraDB with
      | error e => exact ⟨rfl, rfl, rfl, rfl⟩
      | ok db => rw [afterRows_effects]; exact ⟨rfl, rfl, rfl, rfl⟩

lemma afterEmbedding_200_write (env : Env) (q : String) (mt : ℚ) (mc : Int)
    (emb : List ℚ) (fx : Effects) (b : RespBody)
    (h : (afterEmbedding env q mt mc emb fx).1 = HResult.resp 200 b) :
    env.resultCacheWrite = Except.ok () := by
  unfold afterEmbedding at h
  cases hp : env.pineconeQuery emb mc with
  | error e => rw [hp] at h; simp at h
  | ok ml =>
    rw [hp] at h
    dsimp only at h
    have hrows : ∀ inc (fx' : Effects),
        (afterRows env q mt mc inc fx').1 = HResult.resp 200 b →
        env.resultCacheWrite = Except.ok () := by
      intro inc fx' hr
      rw [afterRows_fst] at hr
      cases hw : env.resultCacheWrite with
      | error e => rw [hw] at hr; simp at hr
      | ok u => cases u; rfl
    split at h
    · exact hrows _ _ h
    · cases hd : env.auroraDB with
      | error e =>
        rw [hd] at h
        simp at h
      | ok db =>
        rw [hd] at h
        exact hrows _ _ h

lemma handler_200_write_ok (env : Env) (body : ReqBody) (b : RespBody)
    (h : (lambda_handler env body).1 = HResult.resp 200 b) :
    env.resultCacheWrite = Except.ok () := by
  unfold lambda_handler at h
  cases hf : pyFloat (body.matchThreshold.getD (PyVal.num (mkRat 7 10))) with
  | none => rw [hf] at h; simp at h
  | some mt =>
    rw [hf] at h
    cases hi : pyInt (body.matchCount.getD (PyVal.num 10)) with
    | none => rw [hi] at h; simp at h
    | some mc =>
      rw [hi] at h
      dsimp only at h
      split at h
      · simp at h
      · cases hc : env.embedCache ("embedding:" ++ body.query.getD "") with
        | some emb =>
          rw [hc] at h
          exact afterEmbedding_200_write _ _ _ _ _ _ _ h
        | none =>
          rw [hc] at h
          cases ho : env.openaiEmbed (body.query.getD "") with
          | error e => rw [ho] at h; simp at h
          | ok emb =>
            rw [ho] at h
            exact afterEmbedding_200_write _ _ _ _ _ _ _ h

/-! ### Concrete environments and bodies used by witnesses -/

/-- Environment whose final result-cache write fails; the other
collaborators succeed trivially. -/
def envWriteFail : Env :=
  { embedCache := fun _ => some [1],
    openaiEmbed := fun _ => Except.error "unused",
    pineconeQuery := fun _ _ => Except.ok [],
    auroraDB := Except.ok [],
    resultCacheWrite := Except.error "redis write failed" }

def bodyQ : ReqBody := { query := some "q", matchThreshold := none, matchCount := none }

def bodyBadThreshold : ReqBody :=
  { query := some "test", matchThreshold := some (PyVal.str "abc"), matchCount := none }

def bodyNoQuery : ReqBody := { query := none, matchThreshold := none, matchCount := none }

/-! ### C1 — result-cache write failure -/

/-- C1 counterexample: a request that reaches the final result-cache write
with a failing write raises the write error instead of returning the
assembled 200 response; no response (of any status) is produced. -/
theorem c1_counterexample :
    (lambda_handler envWriteFail bodyQ).1 = HResult.raised "redis write failed" ∧
    statusOf (lambda_handler envWriteFail bodyQ).1 = none := ⟨rfl, rfl⟩

/-- C1 (amended): the result-cache write on line 231 is not guarded by any
try/except, so a failing write aborts the request — the handler returns a
200 response only when that write succeeded. -/
theorem c1_result_cache_write_aborts (env : Env) (body : ReqBody) (e : String)
    (hw : env.resultCacheWrite = Except.error e) :
    ∀ b : RespBody, (lambda_handler env body).1 ≠ HResult.resp 200 b := by
  intro b h
  have hok := handler_200_write_ok env body b h
  rw [hw] at hok
  exact Except.noConfusion hok

/-- C1 witness: the amended theorem applied to the failing-write
environment. -/
theorem c1_result_cache_write_aborts_witness :
    (lambda_handler envWriteFail bodyQ).1 ≠
      HResult.resp 200 (RespBody.ok [] "q" (mkRat 7 10) 0) :=
  c1_result_cache_write_aborts envWriteFail bodyQ "redis write failed" rfl _

/-! ### C2 — non-numeric matchThreshold / matchCount -/

/-- C2 counterexample: a non-numeric matchThreshold does not produce a 400
JSON error response — the `float(...)` call raises an uncaught ValueError
and the handler produces no response at all. -/
theorem c2_counterexample :
    lambda_handler envWriteFail bodyBadThreshold =
      (HResult.raised "ValueError: could not convert string to float", noEffects) ∧
    statusOf (lambda_handler envWriteFail bodyBadThreshold).1 = none := ⟨rfl, rfl⟩

/-- C2 (amended): a present non-numeric matchThreshold or matchCount value
aborts the handler with an uncaught ValueError before any upstream call —
it is not converted to a 400 (or any) HTTP response. -/
theorem c2_nonnumeric_raises (env : Env) (body : ReqBody)
    (h : pyFloat (body.matchThreshold.getD (PyVal.num (mkRat 7 10))) = none ∨
         pyInt (body.matchCount.getD (PyVal.num 10)) = none) :
    ∃ msg, lambda_handler env body = (HResult.raised msg, noEffects) := by
  unfold lambda_handler
  cases hf : pyFloat (body.matchThreshold.getD (PyVal.num (mkRat 7 10))) with
  | none => exact ⟨_, rfl⟩
  | some mt =>
    cases hi : pyInt (body.matchCount.getD (PyVal.num 10)) with
    | none => exact ⟨_, rfl⟩
    | some mc =>
      rcases h with h | h
      · rw [hf] at h; exact absurd h (by simp)
      · rw [hi] at h; exact absurd h (by simp)

/-- C2 witness: the amended theorem applied to the "abc" threshold. -/
theorem c2_nonnumeric_raises_witness :
    ∃ msg, lambda_handler envWriteFail bodyBadThreshold =
      (HResult.raised msg, noEffects) :=
  c2_nonnumeric_raises envWriteFail bodyBadThreshold (Or.inl (by rfl))

/-! ### C3 — missing or empty query -/

/-- C3: a missing or empty query (with the other fields parsing) yields the
400 "Query is required" response and performs no upstream call at all — no
cache read, no provider call, no vector query, no metadata fetch. -/
theorem c3_missing_query (env : Env) (body : ReqBody) (mt : ℚ) (mc : Int)
    (hf : pyFloat (body.matchThreshold.getD (PyVal.num (mkRat 7 10))) = some mt)
    (hi : pyInt (body.matchCount.getD (PyVal.num 10)) = some mc)
    (hq : body.query = none ∨ body.query = some "") :
    lambda_handler env body =
      (HResult.resp 400 (RespBody.err "Query is required"), noEffects) := by
  unfold lambda_handler
  rw [hf, hi]
  dsimp only
  rw [if_pos hq]

/-- C3 witness: the theorem applied to a body with no query field. -/
theorem c3_missing_query_witness :
    lambda_handler envWriteFail bodyNoQuery =
      (HResult.resp 400 (RespBody.err "Query is required"), noEffects) :=
  c3_missing_query envWriteFail bodyNoQuery (mkRat 7 10) 10 (by rfl) (by rfl)
    (Or.inl rfl)

/-! ### C9 — embedding cache behaviour -/

/-- C9: on a cache hit the handler makes no provider call and queries the
vector index with the cached vector; on a miss it makes exactly one
provider call and, on success, writes the embedding back under the same
key with a 24-hour (86400 s) TTL and proceeds with that vector. -/
theorem c9_embedding_cache (env : Env) (body : ReqBody) (mt : ℚ) (mc : Int)
    (q : String)
    (hf : pyFloat (body.matchThreshold.getD (PyVal.num (mkRat 7 10))) = some mt)
    (hi : pyInt (body.matchCount.getD (PyVal.num 10)) = some mc)
    (hq : body.query = some q) (hne : q ≠ "") :
    (∀ emb, env.embedCache ("embedding:" ++ q) = some emb →
      (lambda_handler env body).2.openaiCalls = [] ∧
      (lambda_handler env body).2.embedCacheWrites = [] ∧
      (lambda_handler env body).2.vectorQueries = [(emb, mc)]) ∧
    (env.embedCache ("embedding:" ++ q) = none →
      (lambda_handler env body).2.openaiCalls = [q] ∧
      ∀ emb, env.openaiEmbed q = Except.ok emb →
        (lambda_handler env body).2.embedCacheWrites =
          [("embedding:" ++ q, 86400, emb)] ∧
        (lambda_handler env body).2.vectorQueries = [(emb, mc)]) := by
  have hqq : ¬(body.query = none ∨ body.query = some "") := by
    rw [hq]
    rintro (hcontr | hcontr)
    · exact Option.noConfusion hcontr
    · exact hne (Option.some.inj hcontr)
  have hget : body.query.getD "" = q := by rw [hq]; rfl
  unfold lambda_handler
  rw [hf, hi]
  dsimp only
  rw [if_neg hqq, hget]
  constructor
  · intro emb hc
    rw [hc]
    have h3 := afterEmbedding_effects env q mt mc emb
      { noEffects with cacheReads := ["embedding:" ++ q] }
    exact ⟨h3.2.1, h3.2.2.1, h3.2.2.2⟩
  · intro hc
    rw [hc]
    cases ho : env.openaiEmbed q with
    | error e =>
      refine ⟨rfl, fun emb hemb => ?_⟩
      exact Except.noConfusion hemb
    | ok emb2 =>
      have h3 := afterEmbedding_effects env q mt mc emb2
        { noEffects with
            cacheReads := ["embedding:" ++ q]
            openaiCalls := [q]
            embedCacheWrites := [("embedding:" ++ q, 60 * 60 * 24, emb2)] }
      refine ⟨h3.2.1, fun emb hemb => ?_⟩
      injection hemb with hemb'
      subst hemb'
      exact ⟨h3.2.2.1, h3.2.2.2⟩

/-- C9 witness: the cache-hit half applied to a concrete environment. -/
theorem c9_embedding_cache_witness :
    (lambda_handler envWriteFail bodyQ).2.openaiCalls = [] ∧
    (lambda_handler envWriteFail bodyQ).2.vectorQueries = [([1], 10)] :=
  have h := c9_embedding_cache envWriteFail bodyQ (mkRat 7 10) 10 "q"
    (by rfl) (by rfl) rfl (by decide)
  ⟨(h.1 [1] rfl).1, (h.1 [1] rfl).2.2⟩

/-! ### Inversion lemmas for a 200 response -/

lemma generate_recommendations_length_le (ta : ThreatAnalysis) :
    (generate_security_recommendations ta).length ≤ 5 := by
  simp only [generate_security_recommendations, List.length_take]
  omega

lemma buildIncident_title (r : Row) : (buildIncident r).title = r.title := rfl

lemma buildIncident_description (r : Row) :
    (buildIncident r).description = r.description := rfl

lemma buildIncident_id (r : Row) : (buildIncident r).id = r.id := rfl

lemma buildIncident_payload (r : Row) :
    (buildIncident r).threat_analysis =
      { threat_level :=
          (detect_threat_patterns (r.title ++ " " ++ r.description.getD "")).threat_level
        confidence_score :=
          (detect_threat_patterns (r.title ++ " " ++ r.description.getD "")).confidence_score
        indicators :=
          (detect_threat_patterns
            (r.title ++ " " ++ r.description.getD "")).indicators.take 10
        risk_factors :=
          (detect_threat_patterns (r.title ++ " " ++ r.description.getD "")).risk_factors
        recommendations :=
          generate_security_recommendations
            (detect_threat_patterns (r.title ++ " " ++ r.description.getD "")) } := rfl

lemma afterEmbedding_fetches (env : Env) (q : String) (mt : ℚ) (mc : Int)
    (emb : List ℚ) (fx : Effects) :
    (afterEmbedding env q mt mc emb fx).2.metadataFetches = fx.metadataFetches ∨
    ∃ ml, env.pineconeQuery emb mc = Except.ok ml ∧
      (afterEmbedding env q mt mc emb fx).2.metadataFetches =
        fx.metadataFetches ++
          [(ml.filter (fun m => decide (m.2 ≥ mt))).map Prod.fst] := by
  unfold afterEmbedding
  cases hp : env.pineconeQuery emb mc with
  | error e => exact Or.inl rfl
  | ok ml =>
    dsimp only
    split
    · rw [afterRows_effects]
      exact Or.inl rfl
    · cases hd : env.auroraDB with
      | error e => exact Or.inr ⟨ml, rfl, rfl⟩
      | ok db =>
        rw [afterRows_effects]
        exact Or.inr ⟨ml, rfl, rfl⟩

lemma afterEmbedding_200_result (env : Env) (q : String) (mt0 : ℚ) (mc : Int)
    (emb : List ℚ) (fx : Effects) (incidents : List Incident) (q' : String)
    (mt : ℚ) (n : Nat)
    (h : (afterEmbedding env q mt0 mc emb fx).1 =
      HResult.resp 200 (RespBody.ok incidents q' mt n)) :
    q' = q ∧ mt = mt0 ∧ n = incidents.length ∧
    ∃ ml, env.pineconeQuery emb mc = Except.ok ml ∧
      (incidents = [] ∨
       ∃ db, env.auroraDB = Except.ok db ∧
         incidents = (db.filter (fun r =>
           ((ml.filter (fun m => decide (m.2 ≥ mt0))).map Prod.fst).contains
             r.id)).map buildIncident) := by
  unfold afterEmbedding at h
  cases hp : env.pineconeQuery emb mc with
  | error e => rw [hp] at h; simp at h
  | ok ml =>
    rw [hp] at h
    dsimp only at h
    split at h
    · rw [afterRows_fst] at h
      cases hw : env.resultCacheWrite with
      | error e => rw [hw] at h; simp at h
      | ok u =>
        rw [hw] at h
        simp only [List.length_nil, HResult.resp.injEq, RespBody.ok.injEq,
          true_and] at h
        obtain ⟨hinc, hqq, hmt, hn⟩ := h
        refine ⟨hqq.symm, hmt.symm, by subst hinc hn; rfl, ml, rfl, Or.inl hinc.symm⟩
    · cases hd : env.auroraDB with
      | error e => rw [hd] at h; simp at h
      | ok db =>
        rw [hd] at h
        rw [afterRows_fst] at h
        cases hw : env.resultCacheWrite with
        | error e => rw [hw] at h; simp at h
        | ok u =>
          rw [hw] at h
          simp only [HResult.resp.injEq, RespBody.ok.injEq, true_and] at h
          obtain ⟨hinc, hqq, hmt, hn⟩ := h
          refine ⟨hqq.symm, hmt.symm, by subst hinc hn; simp, ml, rfl,
            Or.inr ⟨db, rfl, hinc.symm⟩⟩

lemma handler_200_to_stage (env : Env) (body : ReqBody) (b : RespBody)
    (h : (lambda_handler env body).1 = HResult.resp 200 b) :
    ∃ q mt0 mc emb fx1,
      body.query = some q ∧
      lambda_handler env body = afterEmbedding env q mt0 mc emb fx1 ∧
      fx1.vectorQueries = [] ∧ fx1.metadataFetches = [] := by
  unfold lambda_handler at h
  cases hf : pyFloat (body.matchThreshold.getD (PyVal.num (mkRat 7 10))) with
  | none => rw [hf] at h; simp at h
  | some mt0 =>
    rw [hf] at h
    cases hi : pyInt (body.matchCount.getD (PyVal.num 10)) with
    | none => rw [hi] at h; simp at h
    | some mc =>
      rw [hi] at h
      dsimp only at h
      split at h
      case isTrue hcond => simp at h
      case isFalse hcond =>
        cases hq : body.query with
        | none => exact absurd (Or.inl hq) hcond
        | some q =>
          rw [hq] at h
          simp only [Option.getD_some] at h
          cases hc : env.embedCache ("embedding:" ++ q) with
          | some emb =>
            rw [hc] at h
            refine ⟨q, mt0, mc, emb,
              { noEffects with cacheReads := ["embedding:" ++ q] },
              rfl, ?_, rfl, rfl⟩
            unfold lambda_handler
            rw [hf, hi]
            dsimp only
            rw [if_neg hcond, hq]
            simp only [Option.getD_some]
            rw [hc]
          | none =>
            rw [hc] at h
            cases ho : env.openaiEmbed q with
            | error e => rw [ho] at h; simp at h
            | ok emb =>
              rw [ho] at h
              refine ⟨q, mt0, mc, emb,
                { noEffects with
                    cacheReads := ["embedding:" ++ q]
                    openaiCalls := [q]
                    embedCacheWrites := [("embedding:" ++ q, 60 * 60 * 24, emb)] },
                rfl, ?_, rfl, rfl⟩
              unfold lambda_handler
              rw [hf, hi]
              dsimp only
              rw [if_neg hcond, hq]
              simp only [Option.getD_some]
              rw [hc, ho]

lemma handler_200_inv (env : Env) (body : ReqBody) (incidents : List Incident)
    (q' : String) (mt : ℚ) (n : Nat)
    (h : (lambda_handler env body).1 =
      HResult.resp 200 (RespBody.ok incidents q' mt n)) :
    ∃ mc emb,
      body.query = some q' ∧ n = incidents.length ∧
      (lambda_handler env body).2.vectorQueries = [(emb, mc)] ∧
      ∃ ml, env.pineconeQuery emb mc = Except.ok ml ∧
        (∀ f ∈ (lambda_handler env body).2.metadataFetches,
          f = (ml.filter (fun m => decide (m.2 ≥ mt))).map Prod.fst) ∧
        (incidents = [] ∨
         ∃ db, env.auroraDB = Except.ok db ∧
           incidents = (db.filter (fun r =>
             ((ml.filter (fun m => decide (m.2 ≥ mt))).map Prod.fst).contains
               r.id)).map buildIncident) := by
  obtain ⟨q, mt0, mc, emb, fx1, hq, heq, hvq0, hmf0⟩ :=
    handler_200_to_stage env body _ h
  rw [heq] at h
  obtain ⟨hq', hmt, hn, ml, hp, hshape⟩ :=
    afterEmbedding_200_result env q mt0 mc emb fx1 incidents q' mt n h
  subst hq'
  subst hmt
  refine ⟨mc, emb, hq, hn, ?_, ml, hp, ?_, hshape⟩
  · rw [heq, (afterEmbedding_effects env q' mt mc emb fx1).2.2.2, hvq0]
    rfl
  · rw [heq]
    rcases afterEmbedding_fetches env q' mt mc emb fx1 with hmf | ⟨ml2, hp2, hmf⟩
    · rw [hmf, hmf0]
      intro f hf
      exact absurd hf (List.not_mem_nil f)
    · have hml : ml2 = ml := by
        rw [hp2] at hp
        exact Except.ok.inj hp
      subst hml
      rw [hmf, hmf0]
      intro f hf
      simpa using hf

/-! ### C5 — response payload truncation invariants -/

/-- C5: in every 200 response, each incident's `threat_analysis` carries at
most 10 indicators (the first-10 truncation of the full collected list)
and at most 5 recommendations, while its level and score are those the
scorer computed from the untruncated text analysis. -/
theorem c5_payload_invariants (env : Env) (body : ReqBody)
    (incidents : List Incident) (q' : String) (mt : ℚ) (n : Nat)
    (hr : (lambda_handler env body).1 =
      HResult.resp 200 (RespBody.ok incidents q' mt n)) :
    ∀ inc ∈ incidents,
      inc.threat_analysis.indicators.length ≤ 10 ∧
      inc.threat_analysis.recommendations.length ≤ 5 ∧
      inc.threat_analysis.indicators =
        (detect_threat_patterns
          (inc.title ++ " " ++ inc.description.getD "")).indicators.take 10 ∧
      inc.threat_analysis.threat_level =
        (detect_threat_patterns
          (inc.title ++ " " ++ inc.description.getD "")).threat_level ∧
      inc.threat_analysis.confidence_score =
        (detect_threat_patterns
          (inc.title ++ " " ++ inc.description.getD "")).confidence_score ∧
      inc.threat_analysis.risk_factors =
        (detect_threat_patterns
          (inc.title ++ " " ++ inc.description.getD "")).risk_factors ∧
      inc.threat_analysis.recommendations =
        generate_security_recommendations
          (detect_threat_patterns
            (inc.title ++ " " ++ inc.description.getD "")) := by
  intro inc hin
  obtain ⟨mc, emb, hq, hn, hvq, ml, hp, hfet, hshape⟩ :=
    handler_200_inv env body incidents q' mt n hr
  rcases hshape with rfl | ⟨db, hdb, rfl⟩
  · exact absurd hin (List.not_mem_nil _)
  · obtain ⟨r, hr2, rfl⟩ := List.mem_map.mp hin
    rw [buildIncident_payload, buildIncident_title, buildIncident_description]
    refine ⟨?_, ?_, rfl, rfl, rfl, rfl, rfl⟩
    · exact List.length_take_le 10
        (detect_threat_patterns (r.title ++ " " ++ r.description.getD "")).indicators
    · apply generate_recommendations_length_le

/-- C5 witness: the theorem applied to a concrete run returning one
incident. -/
def rowA : Row :=
  { id := "a", title := "malware found", description := none,
    severity := "high", status := "open", assignee := "ann", alert_count := 2,
    tags := "t", created_at := none, updated_at := none }

def rowB : Row :=
  { id := "b", title := "note", description := none, severity := "low",
    status := "closed", assignee := "bo", alert_count := 0, tags := "",
    created_at := none, updated_at := none }

def envPipeline : Env :=
  { embedCache := fun _ => some [1],
    openaiEmbed := fun _ => Except.error "unused",
    pineconeQuery := fun _ _ => Except.ok [("a", 2), ("b", 0)],
    auroraDB := Except.ok [rowA, rowB],
    resultCacheWrite := Except.ok () }

def bodyPipeline : ReqBody :=
  { query := some "q", matchThreshold := some (PyVal.num 1),
    matchCount := some (PyVal.num 5) }

theorem c5_payload_invariants_witness :
    (buildIncident rowA).threat_analysis.indicators.length ≤ 10 ∧
    (buildIncident rowA).threat_analysis.recommendations.length ≤ 5 :=
  have h := c5_payload_invariants envPipeline bodyPipeline [buildIncident rowA]
    "q" 1 1 rfl (buildIncident rowA) (List.mem_singleton.mpr rfl)
  ⟨h.1, h.2.1⟩

/-! ### C8 — threshold filtering -/

/-- C8: a vector-index candidate whose score is strictly below the
request's matchThreshold is excluded from the metadata fetch and its id
never appears among the returned incidents. -/
theorem c8_threshold_filter (env : Env) (body : ReqBody)
    (incidents : List Incident) (q' : String) (mt : ℚ) (n : Nat)
    (emb : List ℚ) (mc : Int) (ml : List (String × ℚ)) (cid : String) (s : ℚ)
    (hr : (lambda_handler env body).1 =
      HResult.resp 200 (RespBody.ok incidents q' mt n))
    (hvq : (lambda_handler env body).2.vectorQueries = [(emb, mc)])
    (hp : env.pineconeQuery emb mc = Except.ok ml)
    (hnd : (ml.map Prod.fst).Nodup)
    (hm : (cid, s) ∈ ml) (hs : s < mt) :
    (∀ f ∈ (lambda_handler env body).2.metadataFetches, cid ∉ f) ∧
    (∀ inc ∈ incidents, inc.id ≠ cid) := by
  obtain ⟨mc2, emb2, hq, hn, hvq2, ml2, hp2, hfet, hshape⟩ :=
    handler_200_inv env body incidents q' mt n hr
  rw [hvq] at hvq2
  injection hvq2 with h1 h2
  obtain ⟨rfl, rfl⟩ := Prod.mk.inj h1
  rw [hp] at hp2
  obtain rfl := Except.ok.inj hp2
  have hid : cid ∉ (ml.filter (fun m => decide (m.2 ≥ mt))).map Prod.fst := by
    intro hmem
    obtain ⟨p, hpin, hpe⟩ := List.mem_map.mp hmem
    have hpml : p ∈ ml := (List.mem_filter.mp hpin).1
    have hge : p.2 ≥ mt := of_decide_eq_true (List.mem_filter.mp hpin).2
    have hpeq : p = (cid, s) := List.inj_on_of_nodup_map hnd hpml hm hpe
    rw [hpeq] at hge
    exact absurd hge (not_le.mpr hs)
  refine ⟨?_, ?_⟩
  · intro f hf
    rw [hfet f hf]
    exact hid
  · intro inc hin
    rcases hshape with rfl | ⟨db, hdb, rfl⟩
    · exact absurd hin (List.not_mem_nil _)
    · obtain ⟨r, hr2, rfl⟩ := List.mem_map.mp hin
      have hrid : r.id ∈ (ml.filter (fun m => decide (m.2 ≥ mt))).map Prod.fst :=
        List.elem_iff.mp ((List.mem_filter.mp hr2).2)
      intro hcontr
      apply hid
      rw [← hcontr, buildIncident_id]
      exact hrid

/-- C8 witness: the theorem applied to a run where candidate "b" scores
below the threshold and is dropped. -/
theorem c8_threshold_filter_witness :
    "b" ∉ (["a"] : List String) ∧ (buildIncident rowA).id ≠ "b" :=
  have h := c8_threshold_filter envPipeline bodyPipeline [buildIncident rowA]
    "q" 1 1 [1] 5 [("a", 2), ("b", 0)] "b" 0 rfl rfl rfl (by decide) (by decide)
    (by decide)
  ⟨h.1 ["a"] (by decide), h.2 (buildIncident rowA) (List.mem_singleton.mpr rfl)⟩

/-- C7 witness: the theorem applied to a concrete threat analysis with
level "high" and no risk factors. -/
theorem c7_recommendations_witness :
    generate_security_recommendations
      { threat_level := "high", confidence_score := 0, indicators := [],
        risk_factors := [] } = generalRecs.take 5 := by
  rw [(c7_recommendations
    { threat_level := "high", confidence_score := 0, indicators := [],
      risk_factors := [] }).1]
  decide

/-- C10 witness: the linked-fields theorem applied to the empty text. -/
theorem c10_fields_linked_witness :
    (detect_threat_patterns "").threat_level = "low" ∧
    generate_security_recommendations (detect_threat_patterns "") = [] := by
  have h := c10_fields_linked ""
  have h0 : (detect_threat_patterns "").indicators = [] := by decide
  exact ⟨h.1.mp h0, h.2.2.2 (h.1.mp h0)⟩
